import Mathlib

/-!
Formal model of the Step execution engine of taskolib (src/Step.cc).

Scripts are modelled abstractly: running a script is a function from the prepared
Lua state to an outcome (success with a final state and a returned value, or a
raised error message), because the Lua interpreter itself is an external
component. Lua values are an inductive type; Lua floats (C doubles) are modelled
as rationals, which is adequate for the number discrimination and the marshalling
logic verified here. Machine integers (C++ long long) are modelled as Int with
explicit 64-bit bounds where overflow matters.
-/

namespace Taskolib

/-- Maximum value of a signed 64-bit integer (std numeric_limits of long long). -/
def llongMax : Int := 9223372036854775807

/-- Minimum value of a signed 64-bit integer. -/
def llongMin : Int := -9223372036854775808

/-- Lua values as seen by the marshalling layer. Numbers carry the Lua 5.3/5.4
integer/float subtype distinction; floats are modelled as rationals. A table is
modelled by the list of its function-valued member names (all that the sandbox
properties need); a function value carries a tag naming it. -/
inductive LuaValue where
  | nil
  | boolean (b : Bool)
  | intNum (n : Int)
  | floatNum (q : ℚ)
  | str (s : String)
  | table (fnMembers : List String)
  | function (tag : String)
  | userdata
  deriving DecidableEq

/-- VariableValue from taskomat: tagged union of long long, double and string
(spec section 3). -/
inductive VariableValue where
  | integer (n : Int)
  | floating (q : ℚ)
  | text (s : String)
  deriving DecidableEq

/-- Context.variables: mapping from variable names to typed values, modelled as an
association list (the Context structure of the C++ code holds this map in its
member named after the variables; the optional lua_init_function is passed to
execute as a separate parameter so that Context keeps decidable equality). -/
abbrev Context := List (String × VariableValue)

/-- CommChannel as seen from inside the engine: only the termination-request flag
crosses into the hook. Posted messages are collected by execute itself. -/
structure CommChannel where
  immediate_termination_requested_ : Bool
  deriving DecidableEq

/-- Message types relevant to Step execution. -/
inductive MessageType where
  | step_started
  | step_stopped
  | step_stopped_with_error
  deriving DecidableEq

/-- A lifecycle message posted on the CommChannel. Timestamps are real-time data
and are not modelled. -/
structure Message where
  mtype : MessageType
  text : String
  step_index : Nat
  deriving DecidableEq

/-- Lookup in an association list keyed by strings. -/
def lookupVar {α : Type} : List (String × α) → String → Option α
  | [], _ => none
  | (k, v) :: rest, n => if k = n then some v else lookupVar rest n

/-- Insert or overwrite a key in an association list. -/
def setVar {α : Type} : List (String × α) → String → α → List (String × α)
  | [], n, v => [(n, v)]
  | (k, w) :: rest, n, v =>
      if k = n then (n, v) :: rest else (k, w) :: setVar rest n v

/-- Reading a Lua global: an unbound name reads as nil. -/
def getGlobal (globals : List (String × LuaValue)) (n : String) : LuaValue :=
  (lookupVar globals n).getD .nil

theorem lookupVar_setVar_self {α : Type} (m : List (String × α)) (n : String) (v : α) :
    lookupVar (setVar m n v) n = some v := by
  induction m with
  | nil => simp [setVar, lookupVar]
  | cons hd tl ih =>
      obtain ⟨k, w⟩ := hd
      by_cases h : k = n
      · simp [setVar, lookupVar, h]
      · simp [setVar, lookupVar, h, ih]

theorem lookupVar_setVar_other {α : Type} (m : List (String × α)) (n k : String) (v : α)
    (h : n ≠ k) : lookupVar (setVar m n v) k = lookupVar m k := by
  induction m with
  | nil => simp [setVar, lookupVar, h]
  | cons hd tl ih =>
      obtain ⟨k', w⟩ := hd
      by_cases h' : k' = n
      · subst h'
        simp [setVar, lookupVar, h]
      · simp [setVar, lookupVar, h', ih]

/-! Registry keys (Step.cc, anonymous namespace). -/

def step_timeout_ms_since_epoch_key : String := "TASKOMAT_STEP_TIMEOUT_MS_SINCE_EPOCH"

def step_timeout_s_key : String := "TASKOMAT_STEP_TIMEOUT_S"

def comm_channel_key : String := "TASKOMAT_COMM_CHANNEL"

/-- The Lua registry entries written by the engine. A field holds none when the
key is absent. The comm-channel entry stores a pointer value: present-but-null is
some none (sol reads a nil registry slot as a valid null CommChannel pointer). -/
structure Registry where
  timeout_ms_since_epoch : Option Int
  timeout_s : Option ℚ
  comm_channel : Option (Option CommChannel)
  deriving DecidableEq

/-- Standard Lua libraries relevant to the sandbox. -/
inductive LuaLib where
  | base
  | math
  | string
  | table
  | utf8
  deriving DecidableEq

/-- The engine-visible state of one sol::state: global bindings, the set of opened
standard libraries, the registry entries, and the instruction-count mask of the
installed hook (none while no count hook is installed). -/
structure LuaState where
  globals : List (String × LuaValue)
  openLibs : List LuaLib
  registry : Registry
  hookCountMask : Option Nat

/-- A freshly constructed sol::state: nothing opened, nothing bound, no registry
entries, no hook. -/
def freshLuaState : LuaState :=
  { globals := [], openLibs := [], registry := ⟨none, none, none⟩,
    hookCountMask := none }

/-- abort_script_with_error stores the message with an [ABORT] marker in the
registry and raises a Lua error carrying it; the model returns the raised
message. -/
def abort_script_with_error (msg : String) : String :=
  "[ABORT] " ++ msg

/-- check_immediate_termination_request: looks up the CommChannel pointer in the
registry; aborts when the entry is absent; when the pointer is non-null and the
termination flag is set, aborts with the user-request message. A raised abort is
modelled as some message. -/
def check_immediate_termination_request (reg : Registry) : Option String :=
  match reg.comm_channel with
  | none => some (abort_script_with_error
      (comm_channel_key ++ " not found in LUA registry"))
  | some comm =>
      match comm with
      | some c =>
          if c.immediate_termination_requested_ then
            some (abort_script_with_error "Step aborted on user request")
          else
            none
      | none => none

/-- Modelled from the spec: the decimal rendering of a C++ double by the host's
string concatenation (gul14 cat). Only that the text is a fixed function of the
value matters to the verified claims; the exact digit sequence is not modelled. -/
def format_double (q : ℚ) : String := toString q

/-- check_script_timeout: reads the deadline from the registry; aborts when the
entry is absent; aborts with the timeout message when now (in milliseconds since
epoch) is strictly past the deadline. -/
def check_script_timeout (reg : Registry) (now_ms : Int) : Option String :=
  match reg.timeout_ms_since_epoch with
  | none => some (abort_script_with_error
      ("Timeout time point not found in LUA registry ("
        ++ step_timeout_ms_since_epoch_key ++ ")"))
  | some timeout_ms =>
      if now_ms > timeout_ms then
        let seconds := reg.timeout_s.getD (-1)
        some (abort_script_with_error
          ("Timeout: Script took more than " ++ format_double seconds
            ++ " s to run"))
      else
        none

/-- hook_check_timeout_and_termination_request: runs the termination-request
check and, when that did not raise, the timeout check. -/
def hook_check_timeout_and_termination_request (reg : Registry) (now_ms : Int) :
    Option String :=
  match check_immediate_termination_request reg with
  | some e => some e
  | none => check_script_timeout reg now_ms

/-- get_ms_since_epoch: time point t0 plus duration dt, both in milliseconds; on
overflow of the signed 64-bit sum the maximum representable value is returned. -/
def get_ms_since_epoch (t0_ms dt_ms : Int) : Int :=
  let max_dt := llongMax - t0_ms
  if dt_ms < max_dt then t0_ms + dt_ms else llongMax

/-- install_timeout_and_termination_request_hook: writes the timeout in seconds,
the deadline in milliseconds since epoch and the CommChannel pointer into the
registry, then installs the check hook with an instruction-count mask of 100. -/
def install_timeout_and_termination_request_hook (lua : LuaState) (now_ms : Int)
    (timeout_ms : Int) (comm_channel : Option CommChannel) : LuaState :=
  { lua with
    registry :=
      { timeout_s := some ((timeout_ms : ℚ) / 1000),
        timeout_ms_since_epoch := some (get_ms_since_epoch now_ms timeout_ms),
        comm_channel := some comm_channel },
    hookCountMask := some 100 }

/-- Modelled from the spec: the global bindings contributed by each standard Lua
library on open_libraries. The base library binds its functions as plain globals;
math, string, table and utf8 each bind one global table of function members (the
members listed are those the spec names plus commonly used ones). The require
global belongs to the package library and the debug global to the debug library,
neither of which is opened here. -/
def libGlobalBindings : LuaLib → List (String × LuaValue)
  | .base =>
      [("print", .function "print"), ("collectgarbage", .function "collectgarbage"),
       ("dofile", .function "dofile"), ("load", .function "load"),
       ("loadfile", .function "loadfile"), ("pcall", .function "pcall"),
       ("error", .function "error"), ("type", .function "type"),
       ("tostring", .function "tostring"), ("tonumber", .function "tonumber"),
       ("pairs", .function "pairs"), ("ipairs", .function "ipairs"),
       ("select", .function "select"), ("assert", .function "assert")]
  | .math => [("math", .table ["sqrt", "floor", "ceil", "abs", "max", "min", "random"])]
  | .string => [("string", .table ["upper", "lower", "format", "len", "sub", "rep"])]
  | .table => [("table", .table ["concat", "insert", "remove", "sort", "unpack"])]
  | .utf8 => [("utf8", .table ["len", "char", "codepoint", "offset"])]

/-- open_libraries for a list of standard libraries: records them as open and
binds their globals. -/
def open_libraries (lua : LuaState) (libs : List LuaLib) : LuaState :=
  { lua with
    openLibs := lua.openLibs ++ libs,
    globals := libs.foldl
      (fun g lib => (libGlobalBindings lib).foldl
        (fun g' kv => setVar g' kv.1 kv.2) g)
      lua.globals }

/-- open_safe_library_subset: opens base, math, string, table and utf8, then
unbinds the dangerous globals by assigning nil to them. -/
def open_safe_library_subset (lua : LuaState) : LuaState :=
  let lua := open_libraries lua [.base, .math, .string, .table, .utf8]
  let g := lua.globals
  let g := setVar g "collectgarbage" .nil
  let g := setVar g "debug" .nil
  let g := setVar g "dofile" .nil
  let g := setVar g "load" .nil
  let g := setVar g "loadfile" .nil
  let g := setVar g "print" .nil
  let g := setVar g "require" .nil
  { lua with globals := g }

/-- install_custom_commands: binds the host sleep function as a global. -/
def install_custom_commands (lua : LuaState) : LuaState :=
  { lua with globals := setVar lua.globals "sleep" (.function "sleep") }

/-- Modelled from the spec: the sol check var.is with target type long long,
under SOL_SAFE_NUMERICS set to 1 (sol/config.hpp, whose comment says the checks
differentiate integers from floating-point numbers). The safe-numerics integral
check is the precise Lua integer-subtype test (lua_isinteger): it accepts
exactly the values the VM marks as the integer sub-type and rejects every
float, whatever its value; this matches the sub-type language of the spec
(sections 4.3, 6 and 8). -/
def lua_number_is_long_long : LuaValue → Bool
  | .intNum _ => true
  | _ => false

/-- Modelled from the spec: var.as with target type long long, for a script
number that passed the check above; only the integer sub-type passes, for which
the conversion is exact. -/
def lua_as_long_long : LuaValue → Int
  | .intNum n => n
  | .floatNum q => q.num
  | _ => 0

/-- Modelled from the spec: var.as with target type double, for a script
number. -/
def lua_as_double : LuaValue → ℚ
  | .intNum n => (n : ℚ)
  | .floatNum q => q
  | _ => 0

/-- Step.copy_used_variables_from_context_to_lua, body of the loop for one
variable name: a name absent from the context is skipped; an integer, floating or
text value is assigned into the Lua globals with the corresponding subtype. -/
def import_one (context : Context) (g : List (String × LuaValue))
    (varname : String) : List (String × LuaValue) :=
  match lookupVar context varname with
  | none => g
  | some (.integer n) => setVar g varname (.intNum n)
  | some (.floating q) => setVar g varname (.floatNum q)
  | some (.text s) => setVar g varname (.str s)

/-- Step.copy_used_variables_from_context_to_lua: the C++ range-for over the
used-variable names is modelled by structural recursion over the name list. -/
def copy_used_variables_from_context_to_lua (context : Context)
    (names : List String) (lua : LuaState) : LuaState :=
  match names with
  | [] => lua
  | n :: rest =>
      copy_used_variables_from_context_to_lua context rest
        { lua with globals := import_one context lua.globals n }

/-- Step.copy_used_variables_from_lua_to_context, body of the loop for one
variable name: the switch over the sol type of the global. Both number subtypes
enter the number branch, which discriminates long long from double; strings are
stored as text; every other type is skipped. -/
def export_one (g : List (String × LuaValue)) (context : Context)
    (varname : String) : Context :=
  let var := getGlobal g varname
  match var with
  | .intNum _ | .floatNum _ =>
      if lua_number_is_long_long var then
        setVar context varname (.integer (lua_as_long_long var))
      else
        setVar context varname (.floating (lua_as_double var))
  | .str s => setVar context varname (.text s)
  | _ => context

/-- Step.copy_used_variables_from_lua_to_context: recursion over the
used-variable names. -/
def copy_used_variables_from_lua_to_context (g : List (String × LuaValue))
    (names : List String) (context : Context) : Context :=
  match names with
  | [] => context
  | n :: rest =>
      copy_used_variables_from_lua_to_context g rest (export_one g context n)

/-- Outcome of running a script on a prepared Lua state: either the script runs
to completion with a final state and a returned value, or the protected call
fails with a Lua error message (safe_script with the default error handler
throws a sol error when a script fails, since the embedding is configured for
C++ exceptions; timeout and cancellation aborts also surface this way, raised by
the hooks with an [ABORT]-prefixed message). -/
inductive ScriptOutcome where
  | ok (lua : LuaState) (ret : LuaValue)
  | err (msg : String)

/-- A script, modelled by its effect on the Lua state it runs in. -/
abbrev Script := LuaState → ScriptOutcome

/-- Result of Step.execute: the returned bool, or the thrown Error message. -/
inductive ExecResult where
  | success (b : Bool)
  | failure (msg : String)
  deriving DecidableEq

/-- Observable outcome of Step.execute: the result, the final Context, and the
messages posted on the CommChannel, in posting order. -/
structure ExecOutput where
  result : ExecResult
  context : Context
  messages : List Message
  deriving DecidableEq

/-- Modelled from the spec: send_message posts a message on the CommChannel when
a channel is given; with a null channel pointer nothing is delivered. Timestamps
are not modelled. -/
def send_message (comm : Option CommChannel) (t : MessageType) (text : String)
    (index : Nat) (posted : List Message) : List Message :=
  match comm with
  | none => posted
  | some _ => posted ++ [⟨t, text, index⟩]

/-- A Step as far as execute is concerned: the used-variable whitelist and the
timeout in milliseconds. The script text is represented by the Script function
given to execute. -/
structure Step where
  used_context_variable_names_ : List String
  timeout_ms : Int

/-- The Lua state prepared by Step.execute before the script runs: a fresh state,
the safe library subset, the custom commands, the optional init function from
the Context, the timeout and termination hook with its registry entries, and the
imported used variables. -/
def Step.prepare (step : Step) (context : Context) (comm : Option CommChannel)
    (init : Option (LuaState → LuaState)) (now_ms : Int) : LuaState :=
  let lua := freshLuaState
  let lua := open_safe_library_subset lua
  let lua := install_custom_commands lua
  let lua := match init with
    | some f => f lua
    | none => lua
  let lua := install_timeout_and_termination_request_hook lua now_ms
    step.timeout_ms comm
  copy_used_variables_from_context_to_lua context
    step.used_context_variable_names_ lua

/-- Step.execute. The protected call either throws (modelled by ScriptOutcome.err,
handled by the catch block which composes the message with index + 1, posts
step_stopped_with_error, and rethrows) or succeeds, in which case the used
variables are exported and the value conversion to an optional bool decides
between the early return (shadowed local, no terminal message posted) and the
fall-through that posts step_stopped with the outer result, which is still
false. -/
def Step.execute (step : Step) (run : Script) (context : Context)
    (comm : Option CommChannel) (index : Nat)
    (init : Option (LuaState → LuaState)) (now_ms : Int) : ExecOutput :=
  let posted := send_message comm .step_started "Step started" index []
  let lua := step.prepare context comm init now_ms
  match run lua with
  | .err e =>
      let msg := "Error while executing script of step " ++ toString (index + 1)
        ++ ": " ++ e
      { result := .failure msg,
        context := context,
        messages := send_message comm .step_stopped_with_error msg index posted }
  | .ok lua' ret =>
      let context' := copy_used_variables_from_lua_to_context lua'.globals
        step.used_context_variable_names_ context
      match ret with
      | .boolean b =>
          { result := .success b, context := context', messages := posted }
      | _ =>
          let result := false
          { result := .success result,
            context := context',
            messages := send_message comm .step_stopped
              ("Step " ++ toString (index + 1) ++ " finished (logical result: "
                ++ (if result then "true" else "false") ++ ")") index posted }

/-- Whether a global table member is a callable library function. -/
def member_callable (lua : LuaState) (g m : String) : Bool :=
  match getGlobal lua.globals g with
  | .table ms => ms.contains m
  | _ => false

/-- The export rule the program implements, for one name: a number becomes the
integer variant iff the VM marks it as the integer sub-type (the precise
safe-numerics check), so every float — whole-numbered or not — becomes the
floating variant; a string becomes text; every other type leaves the previous
context entry unchanged. -/
def export_rule : LuaValue → Option VariableValue → Option VariableValue
  | .intNum n, _ => some (.integer n)
  | .floatNum q, _ => some (.floating q)
  | .str s, _ => some (.text s)
  | _, old => old

/-- The export rule for one name as claim C4 words it: a number becomes the
integer variant iff its value is exactly representable as a signed 64-bit
integer, otherwise the floating variant; a string becomes text; every other
type leaves the entry unchanged. Kept only to compare against the rule the
program implements. -/
def export_rule_as_claimed : LuaValue → Option VariableValue → Option VariableValue
  | .intNum n, _ =>
      if llongMin ≤ n ∧ n ≤ llongMax then some (.integer n)
      else some (.floating (n : ℚ))
  | .floatNum q, _ =>
      if q.den = 1 ∧ llongMin ≤ q.num ∧ q.num ≤ llongMax then
        some (.integer q.num)
      else some (.floating q)
  | .str s, _ => some (.text s)
  | _, old => old

theorem getGlobal_setVar_self (g : List (String × LuaValue)) (n : String)
    (v : LuaValue) : getGlobal (setVar g n v) n = v := by
  simp [getGlobal, lookupVar_setVar_self]

theorem export_one_lookup_self (g : List (String × LuaValue)) (context : Context)
    (n : String) :
    lookupVar (export_one g context n) n
      = export_rule (getGlobal g n) (lookupVar context n) := by
  cases h : getGlobal g n <;>
    simp [export_one, export_rule, h, lua_number_is_long_long, lua_as_long_long,
      lua_as_double, lookupVar_setVar_self]

theorem export_one_lookup_other (g : List (String × LuaValue))
    (context : Context) (n m : String) (h : n ≠ m) :
    lookupVar (export_one g context m) n = lookupVar context n := by
  cases hg : getGlobal g m <;>
    simp [export_one, hg] <;>
    first
      | rfl
      | (split <;> rw [lookupVar_setVar_other _ _ _ _ (fun he => h he.symm)])
      | rw [lookupVar_setVar_other _ _ _ _ (fun he => h he.symm)]

theorem export_rule_idem (v : LuaValue) (old : Option VariableValue) :
    export_rule v (export_rule v old) = export_rule v old := by
  cases v <;> simp [export_rule]

theorem copy_from_lua_lookup_not_mem (g : List (String × LuaValue))
    (names : List String) (context : Context) (n : String) (h : n ∉ names) :
    lookupVar (copy_used_variables_from_lua_to_context g names context) n
      = lookupVar context n := by
  induction names generalizing context with
  | nil => rfl
  | cons m rest ih =>
      simp only [List.mem_cons, not_or] at h
      simp only [copy_used_variables_from_lua_to_context]
      rw [ih _ h.2, export_one_lookup_other _ _ _ _ h.1]

/-- C6: for every start time and every non-negative timeout, the deadline written
into the registry by install_timeout_and_termination_request_hook equals the
start time plus the timeout in milliseconds since epoch, except that a sum past
the signed 64-bit maximum saturates to that maximum (no wrap-around). -/
theorem install_deadline_is_saturating_sum (lua : LuaState)
    (now_ms timeout_ms : Int) (comm : Option CommChannel)
    (h0 : 0 ≤ now_ms) (h1 : now_ms ≤ llongMax) (h2 : 0 ≤ timeout_ms) :
    (install_timeout_and_termination_request_hook lua now_ms timeout_ms
        comm).registry.timeout_ms_since_epoch
      = some (min (now_ms + timeout_ms) llongMax) := by
  have h : get_ms_since_epoch now_ms timeout_ms
      = min (now_ms + timeout_ms) llongMax := by
    simp only [get_ms_since_epoch, llongMax] at *
    split <;> omega
  simp [install_timeout_and_termination_request_hook, h]

theorem install_deadline_is_saturating_sum_witness :
    (install_timeout_and_termination_request_hook freshLuaState 3 4
        none).registry.timeout_ms_since_epoch
      = some (min (3 + 4) llongMax) :=
  install_deadline_is_saturating_sum freshLuaState 3 4 none (by decide)
    (by decide) (by decide)

/-- C5: the periodic check hook (installed with an instruction-count mask of 100,
and fed the configured timeout in seconds) aborts with an [ABORT]-prefixed error
in exactly these cases: absent CommChannel registry entry (channel-not-found),
termination flag of the stored channel set (user-request message), absent
deadline entry, or now strictly past the deadline (timeout message with the
stored seconds value); otherwise it returns without effect. -/
theorem hook_check_aborts_exactly_in_specified_cases (reg : Registry)
    (now_ms : Int) :
    (reg.comm_channel = none →
      hook_check_timeout_and_termination_request reg now_ms
        = some ("[ABORT] " ++ (comm_channel_key ++ " not found in LUA registry")))
  ∧ (∀ c : CommChannel, reg.comm_channel = some (some c) →
      c.immediate_termination_requested_ = true →
      hook_check_timeout_and_termination_request reg now_ms
        = some "[ABORT] Step aborted on user request")
  ∧ (∀ p : Option CommChannel, reg.comm_channel = some p →
      (∀ c : CommChannel, p = some c →
        c.immediate_termination_requested_ = false) →
      reg.timeout_ms_since_epoch = none →
      hook_check_timeout_and_termination_request reg now_ms
        = some ("[ABORT] " ++ ("Timeout time point not found in LUA registry ("
            ++ step_timeout_ms_since_epoch_key ++ ")")))
  ∧ (∀ (p : Option CommChannel) (t : Int), reg.comm_channel = some p →
      (∀ c : CommChannel, p = some c →
        c.immediate_termination_requested_ = false) →
      reg.timeout_ms_since_epoch = some t → now_ms > t →
      hook_check_timeout_and_termination_request reg now_ms
        = some ("[ABORT] " ++ ("Timeout: Script took more than "
            ++ format_double (reg.timeout_s.getD (-1)) ++ " s to run")))
  ∧ (∀ (p : Option CommChannel) (t : Int), reg.comm_channel = some p →
      (∀ c : CommChannel, p = some c →
        c.immediate_termination_requested_ = false) →
      reg.timeout_ms_since_epoch = some t → now_ms ≤ t →
      hook_check_timeout_and_termination_request reg now_ms = none)
  ∧ (∀ (lua : LuaState) (timeout_ms : Int) (comm : Option CommChannel),
      (install_timeout_and_termination_request_hook lua now_ms timeout_ms
          comm).hookCountMask = some 100
      ∧ (install_timeout_and_termination_request_hook lua now_ms timeout_ms
          comm).registry.timeout_s = some ((timeout_ms : ℚ) / 1000)) := by
  refine ⟨?_, ?_, ?_, ?_, ?_, ?_⟩
  · intro h
    simp [hook_check_timeout_and_termination_request,
      check_immediate_termination_request, abort_script_with_error, h]
  · intro c hc hflag
    simp [hook_check_timeout_and_termination_request,
      check_immediate_termination_request, abort_script_with_error, hc, hflag]
  · intro p hp hflag ht
    cases p with
    | none =>
        simp [hook_check_timeout_and_termination_request,
          check_immediate_termination_request, check_script_timeout,
          abort_script_with_error, hp, ht]
    | some c =>
        simp [hook_check_timeout_and_termination_request,
          check_immediate_termination_request, check_script_timeout,
          abort_script_with_error, hp, ht, hflag c rfl]
  · intro p t hp hflag ht hnow
    cases p with
    | none =>
        simp [hook_check_timeout_and_termination_request,
          check_immediate_termination_request, check_script_timeout,
          abort_script_with_error, hp, ht, hnow]
    | some c =>
        simp [hook_check_timeout_and_termination_request,
          check_immediate_termination_request, check_script_timeout,
          abort_script_with_error, hp, ht, hnow, hflag c rfl]
  · intro p t hp hflag ht hnow
    cases p with
    | none =>
        simp [hook_check_timeout_and_termination_request,
          check_immediate_termination_request, check_script_timeout,
          abort_script_with_error, hp, ht, Int.not_lt.mpr hnow]
    | some c =>
        simp [hook_check_timeout_and_termination_request,
          check_immediate_termination_request, check_script_timeout,
          abort_script_with_error, hp, ht, hflag c rfl, Int.not_lt.mpr hnow]
  · intro lua timeout_ms comm
    exact ⟨rfl, rfl⟩

theorem hook_check_aborts_exactly_in_specified_cases_witness :
    hook_check_timeout_and_termination_request ⟨none, none, some (some ⟨true⟩)⟩ 0
      = some "[ABORT] Step aborted on user request" :=
  (hook_check_aborts_exactly_in_specified_cases ⟨none, none, some (some ⟨true⟩)⟩
    0).2.1 ⟨true⟩ rfl rfl

/-- C9: after sandbox construction exactly base, math, string, table and utf8
are open; the globals collectgarbage, debug, dofile, load, loadfile, print and
require all evaluate to nil; library members math.sqrt, string.upper,
table.concat and utf8.len remain callable. -/
theorem sandbox_construction_properties :
    (open_safe_library_subset freshLuaState).openLibs
        = [.base, .math, .string, .table, .utf8]
    ∧ getGlobal (open_safe_library_subset freshLuaState).globals "collectgarbage"
        = .nil
    ∧ getGlobal (open_safe_library_subset freshLuaState).globals "debug" = .nil
    ∧ getGlobal (open_safe_library_subset freshLuaState).globals "dofile" = .nil
    ∧ getGlobal (open_safe_library_subset freshLuaState).globals "load" = .nil
    ∧ getGlobal (open_safe_library_subset freshLuaState).globals "loadfile" = .nil
    ∧ getGlobal (open_safe_library_subset freshLuaState).globals "print" = .nil
    ∧ getGlobal (open_safe_library_subset freshLuaState).globals "require" = .nil
    ∧ member_callable (open_safe_library_subset freshLuaState) "math" "sqrt"
        = true
    ∧ member_callable (open_safe_library_subset freshLuaState) "string" "upper"
        = true
    ∧ member_callable (open_safe_library_subset freshLuaState) "table" "concat"
        = true
    ∧ member_callable (open_safe_library_subset freshLuaState) "utf8" "len"
        = true := by
  decide

/-- C10: with a null CommChannel pointer the channel registry key is still
written (holding the null pointer), the channel-not-found abort never fires, the
termination-request check is silently skipped (the hook reduces to the timeout
check alone), and Step.execute delivers no lifecycle messages. -/
theorem null_comm_channel_behavior :
    ∀ (lua : LuaState) (now_ms timeout_ms now2_ms : Int),
      (install_timeout_and_termination_request_hook lua now_ms timeout_ms
          none).registry.comm_channel = some none
      ∧ check_immediate_termination_request
          (install_timeout_and_termination_request_hook lua now_ms timeout_ms
            none).registry = none
      ∧ hook_check_timeout_and_termination_request
          (install_timeout_and_termination_request_hook lua now_ms timeout_ms
            none).registry now2_ms
        = check_script_timeout
            (install_timeout_and_termination_request_hook lua now_ms timeout_ms
              none).registry now2_ms
      ∧ (∀ (step : Step) (run : Script) (context : Context) (index : Nat)
          (init : Option (LuaState → LuaState)),
          (step.execute run context none index init now_ms).messages = []) := by
  intro lua now_ms timeout_ms now2_ms
  refine ⟨rfl, rfl, ?_, ?_⟩
  · simp [hook_check_timeout_and_termination_request,
      check_immediate_termination_request,
      install_timeout_and_termination_request_hook]
  · intro step run context index init
    cases h : run (step.prepare context none init now_ms) with
    | err e => simp [Step.execute, send_message, h]
    | ok lua' ret =>
        cases ret <;> simp [Step.execute, send_message, h]

/-- C1 evidence: at a script that returns the boolean true, Step.execute
succeeds with true but posts only step_started on the CommChannel; the
step_stopped message the claim requires is skipped, because the success path
returns early through the shadowed local before the terminal send_message. -/
theorem step_execute_boolean_return_posts_no_step_stopped :
    Step.execute ⟨[], 1000⟩ (fun lua => .ok lua (.boolean true)) []
      (some ⟨false⟩) 0 none 0
      = { result := .success true, context := [],
          messages := [⟨.step_started, "Step started", 0⟩] } := by
  rfl

/-- C2: when the protected call of the script runs to completion, Step.execute
returns the boolean the script returned if it returned a boolean, and false
otherwise (a number, string or nothing all yield false). -/
theorem step_execute_success_returns_script_boolean (step : Step) (run : Script)
    (context : Context) (comm : Option CommChannel) (index : Nat)
    (init : Option (LuaState → LuaState)) (now_ms : Int) (lua' : LuaState)
    (ret : LuaValue)
    (h : run (step.prepare context comm init now_ms) = .ok lua' ret) :
    (∀ b, ret = .boolean b →
      (step.execute run context comm index init now_ms).result = .success b)
    ∧ ((∀ b, ret ≠ .boolean b) →
      (step.execute run context comm index init now_ms).result
        = .success false) := by
  constructor
  · intro b hb
    subst hb
    simp [Step.execute, h]
  · intro hb
    cases ret <;>
      first
        | exact absurd rfl (hb _)
        | simp [Step.execute, h]

theorem step_execute_success_returns_script_boolean_witness :
    (Step.execute ⟨[], 1000⟩ (fun lua => ScriptOutcome.ok lua (.intNum 7)) []
      none 0 none 0).result = .success false := by
  have h := step_execute_success_returns_script_boolean ⟨[], 1000⟩
    (fun lua => ScriptOutcome.ok lua (.intNum 7)) [] none 0 none 0 _
    (.intNum 7) rfl
  exact h.2 (fun b hb => LuaValue.noConfusion hb)

/-- C3: when the protected call of the script fails, Step.execute composes the
message with index + 1 and the vm message, posts exactly one
step_stopped_with_error carrying that text after the initial step_started, and
fails with exactly that message. -/
theorem step_execute_failure_message_and_messages (step : Step) (run : Script)
    (context : Context) (c : CommChannel) (index : Nat)
    (init : Option (LuaState → LuaState)) (now_ms : Int) (e : String)
    (h : run (step.prepare context (some c) init now_ms) = .err e) :
    (step.execute run context (some c) index init now_ms).result
      = .failure ("Error while executing script of step " ++ toString (index + 1)
          ++ ": " ++ e)
    ∧ (step.execute run context (some c) index init now_ms).messages
      = [⟨.step_started, "Step started", index⟩,
         ⟨.step_stopped_with_error,
          "Error while executing script of step " ++ toString (index + 1)
            ++ ": " ++ e, index⟩] := by
  constructor <;> simp [Step.execute, send_message, h]

theorem step_execute_failure_message_and_messages_witness :
    (Step.execute ⟨[], 1000⟩ (fun _ => ScriptOutcome.err "boom") []
        (some ⟨false⟩) 0 none 0).messages
      = [⟨.step_started, "Step started", 0⟩,
         ⟨.step_stopped_with_error,
          "Error while executing script of step " ++ toString (0 + 1)
            ++ ": " ++ "boom", 0⟩] :=
  (step_execute_failure_message_and_messages ⟨[], 1000⟩
    (fun _ => ScriptOutcome.err "boom") [] ⟨false⟩ 0 none 0 "boom" rfl).2

/-- C7: when the protected call of the script fails (script error, timeout or
cancellation all surface as the raised error), Step.execute leaves the Context
variable mapping exactly as it was: the export step is not reached. -/
theorem step_execute_failure_preserves_context (step : Step) (run : Script)
    (context : Context) (comm : Option CommChannel) (index : Nat)
    (init : Option (LuaState → LuaState)) (now_ms : Int) (e : String)
    (h : run (step.prepare context comm init now_ms) = .err e) :
    (step.execute run context comm index init now_ms).context = context := by
  simp [Step.execute, h]

theorem step_execute_failure_preserves_context_witness :
    (Step.execute ⟨["x"], 1000⟩ (fun _ => ScriptOutcome.err "boom")
        [("x", .integer 1)] none 0 none 0).context = [("x", .integer 1)] :=
  step_execute_failure_preserves_context ⟨["x"], 1000⟩
    (fun _ => ScriptOutcome.err "boom") [("x", .integer 1)] none 0 none 0
    "boom" rfl

/-- C4 counterexample: at a whitelist holding one name bound to the float 3.0,
the program exports the floating variant, while the claimed rule — integer
variant iff the value is exactly representable as a signed 64-bit integer —
demands the integer variant there, since 3.0 is exactly representable; the two
disagree at this input. -/
theorem export_float_whole_number_counterexample :
    lookupVar
        (copy_used_variables_from_lua_to_context [("x", .floatNum 3)] ["x"] []) "x"
      = some (.floating 3)
    ∧ export_rule_as_claimed (getGlobal [("x", .floatNum 3)] "x")
        (lookupVar ([] : Context) "x")
      = some (.integer 3)
    ∧ some (VariableValue.floating 3) ≠ some (VariableValue.integer 3) := by
  refine ⟨by decide, by decide, by decide⟩

/-- C4 amended: for every name in the export whitelist, the export operation
stores the script value into the context per its type: a number becomes the
integer variant iff the VM marks it as the integer sub-type — so every float,
including one whose value is exactly representable as a signed 64-bit integer,
becomes the floating variant — a string becomes text, and every other type is
skipped, leaving the previous context entry for that name unchanged. -/
theorem copy_used_variables_export_per_subtype (g : List (String × LuaValue))
    (names : List String) (context : Context) (name : String)
    (h : name ∈ names) :
    lookupVar (copy_used_variables_from_lua_to_context g names context) name
      = export_rule (getGlobal g name) (lookupVar context name) := by
  induction names generalizing context with
  | nil => cases h
  | cons m rest ih =>
      simp only [copy_used_variables_from_lua_to_context]
      by_cases hm : name ∈ rest
      · rw [ih _ hm]
        by_cases hnm : name = m
        · subst hnm
          rw [export_one_lookup_self, export_rule_idem]
        · rw [export_one_lookup_other _ _ _ _ hnm]
      · have hnm : name = m := by
          rcases List.mem_cons.mp h with h' | h'
          · exact h'
          · exact absurd h' hm
        subst hnm
        rw [copy_from_lua_lookup_not_mem _ _ _ _ hm, export_one_lookup_self]

theorem copy_used_variables_export_per_subtype_witness :
    lookupVar
        (copy_used_variables_from_lua_to_context [("x", .str "hi")] ["x"] []) "x"
      = export_rule (getGlobal [("x", .str "hi")] "x") (lookupVar [] "x") :=
  copy_used_variables_export_per_subtype [("x", LuaValue.str "hi")] ["x"] []
    "x" (by decide)

/-- The Lua value a Context value is imported as. -/
def importValue : VariableValue → LuaValue
  | .integer k => .intNum k
  | .floating q => .floatNum q
  | .text s => .str s

/-- The script with source text assigning the variable to itself, for one
name: it rebinds the global to its current value and returns nothing. -/
def identity_script (n : String) : Script := fun lua =>
  .ok { lua with globals := setVar lua.globals n (getGlobal lua.globals n) } .nil

/-- Importing one variable, running the identity script on it and exporting it
back, through Step.execute; the resulting context entry for the name. -/
def roundtrip (n : String) (v : VariableValue) : Option VariableValue :=
  lookupVar
    ((Step.execute ⟨[n], 1000⟩ (identity_script n) [(n, v)] none 0
      none 0).context) n

theorem roundtrip_eq (n : String) (v : VariableValue) :
    roundtrip n v = export_rule (importValue v) (some v) := by
  have himp : ∀ g, import_one [(n, v)] g n = setVar g n (importValue v) := by
    intro g
    cases v <;> simp [import_one, lookupVar, importValue]
  simp only [roundtrip, Step.execute, Step.prepare, identity_script,
    copy_used_variables_from_context_to_lua,
    copy_used_variables_from_lua_to_context, himp, send_message]
  rw [export_one_lookup_self, getGlobal_setVar_self, getGlobal_setVar_self]
  simp [lookupVar]

/-- C8: round trip: for every variable name and every context value of variant
integer, floating or text in the used-variables whitelist, importing the
variable into the script environment, running the identity script that assigns
the name to itself, and exporting back leaves the context entry holding a value
of the same variant with an equal payload: the precise integer-subtype check
sends integers back as integers and every float back as floating. -/
theorem roundtrip_preserves_variant_and_payload (n : String)
    (v : VariableValue) : roundtrip n v = some v := by
  rw [roundtrip_eq]
  cases v <;> simp [importValue, export_rule]

end Taskolib
